import Mathlib

/-!
Shallow embedding of the AirSense personal-assistant repository
(`AirSense_PA/Airsense_pa_gemini.py` and `AirSense_PA/Airsense_pa.py`)
together with proofs about its request-orchestration pipeline.

Numeric pollutant concentrations are modelled as exact rationals (`Rat`);
the Python strings produced from them are modelled by `ratStr`
(CPython `str(float)` on values whose shortest repr is the exact decimal)
and `formatTwoDec` (the `:.2f` format, rounding half up on exact input).
Python truthiness of optional numbers and strings is modelled explicitly.
-/

namespace AirSense

/-- Python truthiness test of an optional float (`None` and `0.0` are
falsy; a normalized rational is zero exactly when its numerator is). -/
def pyTruthy (v : Option Rat) : Bool :=
  match v with
  | none => false
  | some x => decide (x.num ≠ 0)

/-- Python truthiness test of an optional string (`None` and `""` are falsy). -/
def pyTruthyStr (v : Option String) : Bool :=
  match v with
  | none => false
  | some s => !s.isEmpty

/-- Decimal digits of the fractional part `r / d`, produced by long division,
with fuel bounding the count; stops when the remainder is zero (matching the
shortest exact decimal rendering of terminating fractions). -/
def fracDigitsStr : Nat → Nat → Nat → String
  | 0, _, _ => ""
  | _, 0, _ => ""
  | fuel + 1, r, d =>
    let r10 := r * 10
    toString (r10 / d) ++ fracDigitsStr fuel (r10 % d) d

/-- Model of CPython `str(float)` for floats whose shortest repr is the exact
terminating decimal of the rational (e.g. `12.3 ↦ "12.3"`, `5 ↦ "5.0"`). -/
def ratStr (q : Rat) : String :=
  let sign := if q.num < 0 then "-" else ""
  let n := q.num.natAbs
  let d := q.den
  let ip := n / d
  let r := n % d
  sign ++ toString ip ++ "." ++ (if r = 0 then "0" else fracDigitsStr 30 r d)

/-- Two decimal digits with leading zero padding. -/
def twoDigits (k : Nat) : String :=
  (if k < 10 then "0" else "") ++ toString k

/-- Model of the Python `:.2f` format on an exact value: the integer
nearest to `100 * q` (half rounded up, computed as
`⌊(200 num + den) / (2 den)⌋` on the normalized fraction), printed with
two fractional digits. -/
def formatTwoDec (q : Rat) : String :=
  let n := Int.fdiv (200 * q.num + (q.den : Int)) (2 * (q.den : Int))
  let sign := if n < 0 then "-" else ""
  let m := n.natAbs
  sign ++ toString (m / 100) ++ "." ++ twoDigits (m % 100)

/-- Scan for `pat` as a contiguous sublist of the second argument. -/
def subSearch (pat : List Char) : List Char → Bool
  | [] => pat.isEmpty
  | c :: rest => pat.isPrefixOf (c :: rest) || subSearch pat rest

/-- Model of the Python substring test `pat in s`. -/
def strContains (s pat : String) : Bool :=
  subSearch pat.data s.data

/-- Model of the Python substring test `pat in s` (argument order used by
the detail-level keyword scan). -/
def pyContains (s pat : String) : Bool := strContains s pat

/-- Concatenation of a list of string chunks (the value of a sequence of
Python `+=` on an accumulator). -/
def strConcat (parts : List String) : String :=
  parts.foldr (fun a b => a ++ b) ""

/-- Python `\s` character class restricted to ASCII. -/
def isPySpaceChar (c : Char) : Bool :=
  c = ' ' || c = '\t' || c = '\n' || c = '\r' || c = '\x0b' || c = '\x0c'

/-- Python `\w` character class restricted to ASCII (letters, digits, underscore). -/
def isPyWordChar (c : Char) : Bool :=
  c.isAlphanum || c = '_'

/-- Model of Python `str.lower()` restricted to ASCII. -/
def pyLower (s : String) : String :=
  String.mk (s.data.map Char.toLower)

/-- Model of Python `str.strip()`. -/
def pyStrip (s : String) : String :=
  let l := s.data.dropWhile isPySpaceChar
  String.mk ((l.reverse.dropWhile isPySpaceChar).reverse)

/-! ### The location-change pattern

Model of `re.search(r"change the location to ([\w\s]+(?:,\s*\w+)?)", q)`
from `air_quality_api` (Airsense_pa_gemini.py line 427).  The pattern is a
literal followed by a greedy word-or-space run and an optional
comma-separated qualifier; `re.IGNORECASE` is immaterial because the
caller has already lowercased the query and the literal is lowercase. -/

def locLiteral : List Char := "change the location to ".data

/-- The optional `(?:,\s*\w+)?` qualifier: a comma, then spaces, then at
least one word character; yields `[]` when it does not match. -/
def locQualifier : List Char → List Char
  | [] => []
  | c :: rest =>
    if c = ',' then
      let sp := rest.takeWhile isPySpaceChar
      let w := (rest.drop sp.length).takeWhile isPyWordChar
      if w.isEmpty then [] else c :: (sp ++ w)
    else []

/-- Attempt the capture group right after the literal: the greedy
`[\w\s]+` run (required nonempty) followed by the optional qualifier. -/
def locGroupAt (l : List Char) : Option (List Char) :=
  let run := l.takeWhile (fun c => isPyWordChar c || isPySpaceChar c)
  if run.isEmpty then none
  else some (run ++ locQualifier (l.drop run.length))

/-- Leftmost-match scan of `re.search` for the location-change pattern. -/
def locSearch : List Char → Option (List Char)
  | [] => none
  | c :: rest =>
    if locLiteral.isPrefixOf (c :: rest) then
      match locGroupAt ((c :: rest).drop locLiteral.length) with
      | some g => some g
      | none => locSearch rest
    else locSearch rest

/-- The value of the group-1 strip (`location_match.group(1).strip()`) when the pattern matches, else `None`. -/
def matchLocationChange (user_query : String) : Option String :=
  (locSearch user_query.data).map (fun g => pyStrip (String.mk g))

/-! ### Data model

Shape of the parsed OpenWeatherMap air-pollution JSON that the module
reads: `coord.lon`/`coord.lat`, and `list[0]` with `main.aqi`,
`components` (pm2_5 through nh3) and `dt`.  Missing keys are `none`; a missing
`components` dict (read via a get with an empty-dict default, whose truthiness the display
function tests) is a `none` at the `components` field itself. -/

structure Components where
  pm2_5 : Option Rat
  pm10 : Option Rat
  co : Option Rat
  no : Option Rat
  no2 : Option Rat
  o3 : Option Rat
  so2 : Option Rat
  nh3 : Option Rat
deriving DecidableEq, Repr

def emptyComponents : Components :=
  { pm2_5 := none, pm10 := none, co := none, no := none
    no2 := none, o3 := none, so2 := none, nh3 := none }

structure AirEntry where
  aqi : Option Int
  components : Option Components
  dt : Option Int
deriving DecidableEq, Repr

structure AirData where
  coord_lon : Option Rat
  coord_lat : Option Rat
  list : List AirEntry
deriving DecidableEq, Repr

/-- Session state: the module-level mutable globals `current_latitude`,
`current_longitude`, `current_city_name`. -/
structure Session where
  current_latitude : Rat
  current_longitude : Rat
  current_city_name : String
deriving DecidableEq, Repr

/-- The constants `DEFAULT_LATITUDE`, `DEFAULT_LONGITUDE` and the initial `current_city_name`. -/
def defaultSession : Session :=
  { current_latitude := mkRat 593293 10000
    current_longitude := mkRat 180686 10000
    current_city_name := "Stockholm" }

/-- Flask responses produced by the root route: a jsonify envelope keyed
by status (HTTP 200), by error (with a status code), or by response. -/
inductive HttpResult where
  | statusMsg (msg : String)
  | errorMsg (msg : String) (code : Nat)
  | responseMsg (msg : String)
deriving DecidableEq, Repr

/-- The text payload of a response, whichever envelope key carries it. -/
def msgOf : HttpResult → String
  | .statusMsg m => m
  | .errorMsg m _ => m
  | .responseMsg m => m

/-- External collaborators, modelled as response functions: the geocoding
service (list of hits or transport error), the air-pollution service
(parsed JSON or transport error), the Gemini backend (generated text or
exception), plus the wall-clock string used by `datetime.now().strftime`. -/
structure Env where
  geo : String → Option (List (Rat × Rat))
  air : Rat → Rat → Option AirData
  gemini : String → Option String
  now : String

/-- Observable side effects of one request cycle: arguments of every
`get_coordinates` call, of every air-quality fetch, every prompt sent to
the LLM, and the console output printed by `display_air_quality_data`. -/
structure Trace where
  geocodeCalls : List String
  fetchCalls : List (Rat × Rat)
  llmPrompts : List String
  displayed : String
deriving DecidableEq, Repr

structure CycleResult where
  session : Session
  response : HttpResult
  trace : Trace
deriving Repr

/-! ### Embedded program functions (Airsense_pa_gemini.py) -/

/-- Source `get_coordinates` (lines 39-63): first geocoding hit, or `None` on a
transport error or an empty result list. -/
def get_coordinates (env : Env) (city_name : String) : Option (Rat × Rat) :=
  match env.geo city_name with
  | none => none
  | some [] => none
  | some (hit :: _) => some hit

/-- Source `process_api_data` (lines 89-103): keep the raw dictionary when it has
a nonempty `list`, else `None`. -/
def process_api_data (data : AirData) : Option AirData :=
  if data.list.isEmpty then none else some data

/-- Source `get_air_quality_data` (lines 67-86): fetch, then `process_api_data`;
`None` on transport error. -/
def get_air_quality_data (env : Env) (lat lon : Rat) : Option AirData :=
  match env.air lat lon with
  | none => none
  | some data => process_api_data data

/-- Source `get_activity_recommendation` (lines 106-131). -/
def get_activity_recommendation (aqi : Option Int) : String :=
  match aqi with
  | none => "Could not determine air quality."
  | some aqi =>
    if aqi ≤ 1 then "Air quality is good. It\x27s a great day for jogging."
    else if aqi ≤ 2 then "Air quality is moderate. You can jog but may consider a shorter time period."
    else if aqi ≤ 3 then "Air quality is unhealthy for sensitive groups. It\x27s best to avoid strenuous outdoor activities like jogging."
    else if aqi ≤ 4 then "Air quality is unhealthy. Avoid outdoor activities."
    else if aqi ≤ 5 then "Air quality is very unhealthy. Please stay indoors."
    else if aqi > 5 then "Air quality is hazardous. Please stay indoors."
    else "Error determining suitable activities."

/-- The `aqi_status` computation of the `/aqipollutants` endpoint
(lines 328-341): starts at `"Not Available"` and is overwritten when the
index is present. -/
def aqi_status_of (aqi : Option Int) : String :=
  match aqi with
  | none => "Not Available"
  | some a =>
    if a ≤ 1 then "Good"
    else if a ≤ 2 then "Moderate"
    else if a ≤ 3 then "Unhealthy for sensitive groups"
    else if a ≤ 4 then "Unhealthy"
    else if a ≤ 5 then "Very Unhealthy"
    else if a > 5 then "Hazardous"
    else "Not Available"

/-- f-string interpolation of an optional float (`None` prints as "None"). -/
def optRatStr (v : Option Rat) : String :=
  match v with
  | none => "None"
  | some q => ratStr q

/-- f-string interpolation of an optional integer. -/
def optIntStr (v : Option Int) : String :=
  match v with
  | none => "None"
  | some i => toString i

/-- One pollutant line of `format_api_response` (lines 146-153): the value
with its unit when the component is truthy, else `Not Available`.  The
presence test is Python truthiness, so `0.0` is treated like an absent
value here. -/
def pollLine (label : String) (v : Option Rat) : String :=
  if pyTruthy v then "  " ++ label ++ ": " ++ ratStr (v.getD 0) ++ " μg/m³\n"
  else "  " ++ label ++ ": Not Available\n"

/-- Source `format_api_response` (lines 134-155); `now` is the
`datetime.now().strftime(...)` string.  Each chunk below is one
`formatted_string +=` of the source, concatenated in source order. -/
def format_api_response (now : String) (data : AirData) : String :=
  let header := "Air Quality Data from " ++ now ++ ":\n"
  let coords := "Coordinates: Lon = " ++ optRatStr data.coord_lon ++ ", Lat = " ++ optRatStr data.coord_lat ++ "\n"
  match data.list with
  | [] => header ++ coords
  | air_data :: _ =>
    let c := air_data.components.getD emptyComponents
    strConcat [header, coords,
      "AQI: " ++ optIntStr air_data.aqi ++ "\n",
      "Pollutants:\n",
      pollLine "PM2.5" c.pm2_5,
      pollLine "PM10" c.pm10,
      pollLine "CO" c.co,
      pollLine "NO" c.no,
      pollLine "NO2" c.no2,
      pollLine "O3" c.o3,
      pollLine "SO2" c.so2,
      pollLine "NH3" c.nh3,
      "Timestamp: " ++ optIntStr air_data.dt ++ "\n"]

/-- The prompt preamble of `get_gemini_response` (lines 175-178). -/
def geminiPreamble (city_name : String) : String :=
  "\n        You are a helpful personal assistant named AirSense AI that helps users understand air quality.\n        The current location is "
    ++ city_name ++ ".\n        "

/-- The `concise` prompt block (lines 179-184). -/
def geminiConciseBlock (city_name formatted_data : String) : String :=
  "\n        Based on the current air quality data for " ++ city_name
    ++ ", provide a short summary with the Air Quality Index (AQI), and whether it is considered good or bad air quality, also include PM2.5 and PM10 values and say whether or not it is safe to be outside. Do not include any other values\n        Here is the full air quality data:\n        "
    ++ formatted_data ++ "\n       "

/-- The `full` prompt block (lines 185-197). -/
def geminiFullBlock (city_name formatted_data query : String) : String :=
  "Here is the full air quality data including coordinates, all available pollutants and a timestamp:\n        "
    ++ formatted_data
    ++ "\n        Based on this air quality data for " ++ city_name
    ++ ", answer the user query: \x27" ++ query
    ++ "\x27.\n        If the user question is broad or general, provide suggestions like:\n        - What activities are safe today?\n        - Where is the air quality good?\n        - How does the air quality affect my health?\n        - What are the AQI and pollutant values?\n        - What does the AQI level mean?\n        Provide information about what the air quality values mean and how they might affect them.\n        If the query is not relevant to air quality, please say \"I can help you with air quality related questions\".\n       "

/-- Source `get_gemini_response` (lines 159-206).  Returns the reply text, paired
with the list of prompts actually sent to the Gemini collaborator (empty
when the call is short-circuited).  `gemini prompt = none` models an
exception from `generate_content`. -/
def get_gemini_response (gemini : String → Option String) (query : String)
    (formatted_data : Option String) (city_name detail_level : String) :
    String × List String :=
  if pyTruthyStr formatted_data = false then
    ("I could not get the air quality data, try again later!", [])
  else
    let fd := formatted_data.getD ""
    let prompt := geminiPreamble city_name
      ++ (if detail_level = "concise" then geminiConciseBlock city_name fd
          else if detail_level = "full" then geminiFullBlock city_name fd query
          else "")
      ++ (" Answer the user query: \x27" ++ query ++ "\x27.")
    match gemini prompt with
    | some t => (t, [prompt])
    | none => ("I\x27m sorry, I encountered an error. Please try again later.", [prompt])

/-- Python `s.split('.')[0]`: the segment before the first dot. -/
def firstDotSegment (s : String) : String :=
  String.mk (s.data.takeWhile (fun c => c ≠ '.'))

/-- The `other_pollutants` loop of `display_air_quality_data`
(lines 239-242). -/
def otherPollutantLines (c : Components) : List String :=
  [("CO", c.co), ("NO", c.no), ("NO2", c.no2),
   ("O3", c.o3), ("SO2", c.so2), ("NH3", c.nh3)].filterMap
    (fun p => p.2.map (fun x => p.1 ++ ": " ++ formatTwoDec x ++ " μg/m³"))

/-- Source `display_air_quality_data` (lines 210-247), as the text printed to the
console (each `print` contributes one `\n`-terminated line).  At the
`"concise"` level the function returns before printing anything. -/
def display_air_quality_data (data : Option AirData) (city_name : String)
    (detail_level : String) : String :=
  if detail_level = "concise" then ""
  else
    let out := "Air Quality Data for: " ++ city_name ++ "\n"
    match data with
    | none => out
    | some d =>
      match d.list with
      | [] => out
      | air_data :: _ =>
        let out := out ++
          (match air_data.aqi with
           | some aqi =>
             "- AQI: " ++ toString aqi ++ " ("
               ++ firstDotSegment (get_activity_recommendation (some aqi)) ++ ")\n"
           | none => "")
        let c := air_data.components.getD emptyComponents
        let out := out ++
          (if air_data.components.isSome then
            (match c.pm2_5 with
             | some v => "- PM2.5: " ++ formatTwoDec v ++ " μg/m³\n"
             | none => "")
            ++ (match c.pm10 with
                | some v => "- PM10: " ++ formatTwoDec v ++ " μg/m³\n"
                | none => "")
           else "")
        let other := otherPollutantLines c
        out ++
          (if other.isEmpty then ""
           else "- Other Pollutants:\n"
             ++ String.join (other.map (fun p => "  - " ++ p ++ "\n")))

/-- Source `air_quality_api`, the root route handler (lines 411-452): one request
cycle of the session controller.  `rawQuery` is the `query` parameter of
the request; the handler lowercases it, checks for an explicit
location-change command, and otherwise runs fetch → format → display →
Gemini. -/
def air_quality_api (env : Env) (s : Session) (rawQuery : String) : CycleResult :=
  let user_query := pyLower rawQuery
  match matchLocationChange user_query with
  | some city_name =>
    match get_coordinates env city_name with
    | some (lat, lon) =>
      { session := { current_latitude := lat, current_longitude := lon
                     current_city_name := city_name }
        response := .statusMsg ("Location updated to " ++ city_name)
        trace := { geocodeCalls := [city_name], fetchCalls := []
                   llmPrompts := [], displayed := "" } }
    | none =>
      { session := s
        response := .errorMsg ("Could not determine coordinates for city "
          ++ city_name ++ ". Using previous location.") 400
        trace := { geocodeCalls := [city_name], fetchCalls := []
                   llmPrompts := [], displayed := "" } }
  | none =>
    match get_air_quality_data env s.current_latitude s.current_longitude with
    | some data =>
      let formatted_data := format_api_response env.now data
      if pyContains user_query "details" || pyContains user_query "pollutants" then
        let disp := display_air_quality_data (some data) s.current_city_name "full"
        let g := get_gemini_response env.gemini user_query (some formatted_data)
          s.current_city_name "full"
        { session := s
          response := .responseMsg g.1
          trace := { geocodeCalls := []
                     fetchCalls := [(s.current_latitude, s.current_longitude)]
                     llmPrompts := g.2, displayed := disp } }
      else
        let disp := display_air_quality_data (some data) s.current_city_name "concise"
        let g := get_gemini_response env.gemini user_query (some formatted_data)
          s.current_city_name "concise"
        { session := s
          response := .responseMsg g.1
          trace := { geocodeCalls := []
                     fetchCalls := [(s.current_latitude, s.current_longitude)]
                     llmPrompts := g.2, displayed := disp } }
    | none =>
      { session := s
        response := .errorMsg "Could not get air quality data" 500
        trace := { geocodeCalls := []
                   fetchCalls := [(s.current_latitude, s.current_longitude)]
                   llmPrompts := [], displayed := "" } }

/-- A sequence of request cycles starting from a given session state. -/
def runCycles (env : Env) (s : Session) : List String → Session
  | [] => s
  | q :: rest => runCycles env (air_quality_api env s q).session rest

/-! ### Embedded program functions (Airsense_pa.py, console/OpenAI variant) -/

/-- The fixed apology of `get_gpt_response_with_air_quality` (line 54). -/
def consoleApology : String :=
  "Sorry, I couldn\x27t retrieve the air quality data. Please try again later."

/-- Source `get_gpt_response_with_air_quality` (Airsense_pa.py lines 51-83).
`air_quality_result` is the value returned by `get_air_quality()` (`None`
on any fetch failure); `openai prompt = none` models any of the OpenAI
exception handlers (all of which return a fixed message without retry;
the general-error message is used as representative).  Returns the reply
and the list of prompts sent to the OpenAI collaborator. -/
def get_gpt_response_with_air_quality (openai : String → Option String)
    (air_quality_result : Option Int) (user_input : String) : String × List String :=
  match air_quality_result with
  | none => (consoleApology, [])
  | some aqi =>
    let prompt := "User asks: " ++ user_input ++ "\nCurrent air quality (AQI): "
      ++ toString aqi ++ "\nRespond based on the air quality levels."
    match openai prompt with
    | some t => (pyStrip t, [prompt])
    | none => ("Sorry, I couldn\x27t process your request. Please try again later.", [prompt])

/-! ### Embedded program functions (IoT endpoint, Airsense_pa_gemini.py) -/

/-- Python exceptions relevant to `get_iot_data`. -/
inductive PyErr where
  | nameError (n : String)
  | requestException
deriving DecidableEq, Repr

/-- Names bound at the top level of the module `Airsense_pa_gemini.py`
(imports, configuration constants, globals and function definitions).
`IOT_API_URL` appears nowhere in the module, so evaluating it raises a
`NameError`. -/
def moduleTopLevelNames : List String :=
  ["requests", "json", "genai", "logging", "re", "datetime", "Flask",
   "request", "jsonify", "CORS", "API_KEY", "GEMINI_API_KEY", "BASE_URL",
   "GEO_URL", "DEFAULT_LATITUDE", "DEFAULT_LONGITUDE", "gemini_model",
   "app", "current_latitude", "current_longitude", "current_city_name",
   "get_coordinates", "get_air_quality_data", "process_api_data",
   "get_activity_recommendation", "format_api_response",
   "get_gemini_response", "display_air_quality_data", "get_iot_data",
   "calculate_aqi_and_status", "aqi_pollutants_api", "pm_air_quality_api",
   "air_quality_api"]

/-- The parsed JSON body returned by the IoT device. -/
structure IotJson where
  pm2_5 : Option Rat
  pm10 : Option Rat
deriving DecidableEq, Repr

/-- The dictionary built by `get_iot_data` on success. -/
structure IotResult where
  pm2_5 : Rat
  pm10 : Rat
  aqi : Rat
  status : String
deriving DecidableEq, Repr

/-- Source `calculate_aqi_and_status` (lines 279-303). -/
def calculate_aqi_and_status (pm25 pm10 : Rat) : Rat × String :=
  let aqi := pm25 + pm10
  let status := "Good"
  let status := if aqi > 50 then "Moderate" else status
  let status := if aqi > 100 then "Unhealthy" else status
  let status := if aqi > 150 then "Harmful" else status
  let status := if aqi > 200 then "Hazardous" else status
  (aqi, status)

/-- The `try` body of `get_iot_data` (lines 257-274).  `iotResp` is the
outcome of `requests.get(IOT_API_URL)`: `none` would be a transport
exception, `some none` a falsy JSON body, `some (some data)` a parsed
body.  Evaluating the name `IOT_API_URL` precedes the request and raises
`NameError` when the name is unbound in the module. -/
def get_iot_data_body (iotResp : Option (Option IotJson)) :
    Except PyErr (Option IotResult) :=
  if "IOT_API_URL" ∈ moduleTopLevelNames then
    match iotResp with
    | none => throw .requestException
    | some none => pure none
    | some (some data) =>
      match data.pm2_5, data.pm10 with
      | some pm25, some pm10 =>
        let r := calculate_aqi_and_status pm25 pm10
        pure (some { pm2_5 := pm25, pm10 := pm10, aqi := r.1, status := r.2 })
      | _, _ => pure none
  else throw (.nameError "IOT_API_URL")

/-- Source `get_iot_data` (lines 250-277): the body wrapped in the handler that
catches only `requests.exceptions.RequestException`. -/
def get_iot_data (iotResp : Option (Option IotJson)) :
    Except PyErr (Option IotResult) :=
  match get_iot_data_body iotResp with
  | .error .requestException => .ok none
  | r => r

/-- The `/aqipollutantsiot` route handler (lines 391-407): a JSON field
list and status code on a normal return, or an uncaught exception. -/
def aqi_pollutants_iot_api (iotResp : Option (Option IotJson)) :
    Except PyErr (List (String × String) × Nat) :=
  match get_iot_data iotResp with
  | .error e => .error e
  | .ok (some d) =>
    .ok ([("aqi", ratStr d.aqi),
          ("pm25", ratStr d.pm2_5),
          ("pm10", ratStr d.pm10),
          ("aqi_status", d.status)], 200)
  | .ok none => .ok ([("error", "Could not get data from IoT device")], 500)

/-! ### Spec-side definitions

These follow the wording of the specification, to be compared with the
definitions extracted from the source. -/

/-- The discrete health-advisory tiers of spec section 4.3. -/
inductive Tier where
  | good
  | moderate
  | unhealthySensitive
  | unhealthy
  | veryUnhealthy
  | hazardous
  | unknown
deriving DecidableEq, Repr

/-- Modelled from the spec: the classifier table of section 4.3
(`≤1` good, `2` moderate, `3` unhealthy-for-sensitive-groups, `4`
unhealthy, `5` very-unhealthy, `>5` hazardous, absent unknown). -/
def specTier : Option Int → Tier
  | none => .unknown
  | some i =>
    if i ≤ 1 then .good
    else if i = 2 then .moderate
    else if i = 3 then .unhealthySensitive
    else if i = 4 then .unhealthy
    else if i = 5 then .veryUnhealthy
    else .hazardous

/-- The advisory string `get_activity_recommendation` renders for each tier. -/
def recTierString : Tier → String
  | .good => "Air quality is good. It\x27s a great day for jogging."
  | .moderate => "Air quality is moderate. You can jog but may consider a shorter time period."
  | .unhealthySensitive => "Air quality is unhealthy for sensitive groups. It\x27s best to avoid strenuous outdoor activities like jogging."
  | .unhealthy => "Air quality is unhealthy. Avoid outdoor activities."
  | .veryUnhealthy => "Air quality is very unhealthy. Please stay indoors."
  | .hazardous => "Air quality is hazardous. Please stay indoors."
  | .unknown => "Could not determine air quality."

/-- The `aqi_status` string the `/aqipollutants` endpoint renders for each
tier. -/
def statusTierString : Tier → String
  | .good => "Good"
  | .moderate => "Moderate"
  | .unhealthySensitive => "Unhealthy for sensitive groups"
  | .unhealthy => "Unhealthy"
  | .veryUnhealthy => "Very Unhealthy"
  | .hazardous => "Hazardous"
  | .unknown => "Not Available"

/-- The per-request detail-level decision, as a named function of the
(lowercased) query the controller branches on. -/
def detailLevelOf (user_query : String) : String :=
  if pyContains user_query "details" || pyContains user_query "pollutants" then "full"
  else "concise"

/-- A session is the starting one or the image of a successful resolution. -/
def sessionResolved (env : Env) (s₀ s : Session) : Prop :=
  s = s₀ ∨ ∃ lat lon city, get_coordinates env city = some (lat, lon) ∧
    s = { current_latitude := lat, current_longitude := lon, current_city_name := city }

/-- Claim C3 as stated: on the request text "change the location to
London" the controller invokes the Location Resolver with the city string
"London". -/
def claimLocationResolverLondon : Prop :=
  ∀ env s,
    (air_quality_api env s "change the location to London").trace.geocodeCalls = ["London"]

/-- Claim C4 as stated: when the air-quality fetch fails, the controller
returns the fixed apology beginning "Sorry, I could not retrieve the air
quality data" as the payload of its response. -/
def claimFetchFailureApology : Prop :=
  ∀ env s q, matchLocationChange (pyLower q) = none →
    env.air s.current_latitude s.current_longitude = none →
    msgOf (air_quality_api env s q).response = consoleApology

/-- Claim C6 as stated: the cycle behaves at the full detail level (the
console display is nonempty) exactly when the user text itself contains
the keyword "details" or "pollutants". -/
def claimKeywordDetailLevel : Prop :=
  ∀ raw env s data, matchLocationChange (pyLower raw) = none →
    get_air_quality_data env s.current_latitude s.current_longitude = some data →
    ((air_quality_api env s raw).trace.displayed ≠ "" ↔
      (pyContains raw "details" || pyContains raw "pollutants") = true)

/-- Claim C7 as stated, at the PM2.5 component: every present
concentration is rendered in the full report with a fixed two-decimal
numeric rendering and a unit suffix. -/
def claimFullReportTwoDecimal : Prop :=
  ∀ now data air rest, data.list = air :: rest →
    ∀ x : Rat, (air.components.getD emptyComponents).pm2_5 = some x →
      strContains (format_api_response now data)
        ("  PM2.5: " ++ formatTwoDec x ++ " μg/m³\n") = true

/-! ### Concrete fixtures for witnesses and counterexamples -/

def sampleComps : Components :=
  { emptyComponents with pm2_5 := some (mkRat 123 10), pm10 := some (mkRat 201 10) }

def sampleEntry : AirEntry :=
  { aqi := some 2, components := some sampleComps, dt := some 1000000 }

def sampleData : AirData :=
  { coord_lon := some (mkRat 180686 10000), coord_lat := some (mkRat 593293 10000)
    list := [sampleEntry] }

/-- Collaborators: the air-quality fetch succeeds with `sampleData`, the
LLM answers, geocoding errors out. -/
def envOk : Env :=
  { geo := fun _ => none
    air := fun _ _ => some sampleData
    gemini := fun _ => some "LLM answer"
    now := "2026-01-01 00:00:00" }

/-- Collaborators: every external call fails (geocoding returns an empty
hit list, the fetch a transport error, the LLM an exception). -/
def envFailAll : Env :=
  { geo := fun _ => some []
    air := fun _ _ => none
    gemini := fun _ => none
    now := "2026-01-01 00:00:00" }

/-- Collaborators: geocoding resolves the city "london" and nothing else;
the other collaborators fail. -/
def envLondon : Env :=
  { geo := fun c => if c = "london" then some [(mkRat 515074 10000, mkRat (-1278) 10000)] else none
    air := fun _ _ => none
    gemini := fun _ => none
    now := "2026-01-01 00:00:00" }

def cexComps : Components :=
  { emptyComponents with pm2_5 := some (mkRat 123 10), pm10 := some 0 }

def cexEntry : AirEntry :=
  { aqi := some 2, components := some cexComps, dt := some 1000 }

def cexData : AirData :=
  { coord_lon := none, coord_lat := none, list := [cexEntry] }

def zeroComps : Components :=
  { emptyComponents with pm2_5 := some 0, pm10 := some (mkRat 201 10) }

def zeroEntry : AirEntry :=
  { aqi := some 3, components := some zeroComps, dt := some 1000 }

def zeroData : AirData :=
  { coord_lon := none, coord_lat := none, list := [zeroEntry] }

/-! ## Theorems -/

/-! ### Substring-search infrastructure -/

theorem subSearch_nil_pat (l : List Char) : subSearch [] l = true := by
  induction l with
  | nil => rfl
  | cons c rest ih => simp [subSearch, List.isPrefixOf]

theorem subSearch_append_right (pat a b : List Char)
    (h : subSearch pat b = true) : subSearch pat (a ++ b) = true := by
  induction a with
  | nil => simpa using h
  | cons c rest ih => simp [subSearch, ih]

theorem subSearch_self_append (pat b : List Char) :
    subSearch pat (pat ++ b) = true := by
  cases pat with
  | nil => exact subSearch_nil_pat b
  | cons c rest =>
    simp only [subSearch, List.cons_append, Bool.or_eq_true]
    left
    simp [ List.isPrefixOf_iff_prefix]

theorem subSearch_append_left (pat a b : List Char)
    (h : subSearch pat a = true) : subSearch pat (a ++ b) = true := by
  induction a with
  | nil =>
    simp only [subSearch, List.isEmpty_iff] at h
    subst h
    simpa using subSearch_nil_pat b
  | cons c rest ih =>
    simp only [subSearch, Bool.or_eq_true, List.cons_append] at h ⊢
    rcases h with h | h
    · left
      rw [ List.isPrefixOf_iff_prefix] at h ⊢
      exact h.trans ⟨b, rfl⟩
    · right
      exact ih h

theorem strContains_app_left (a b p : String)
    (h : strContains a p = true) : strContains (a ++ b) p = true := by
  unfold strContains at *
  rw [String.data_append]
  exact subSearch_append_left _ _ _ h

theorem strContains_app_right (a b p : String)
    (h : strContains b p = true) : strContains (a ++ b) p = true := by
  unfold strContains at *
  rw [String.data_append]
  exact subSearch_append_right _ _ _ h

theorem strContains_refl (p : String) : strContains p p = true := by
  unfold strContains
  have := subSearch_self_append p.data []
  simpa using this

theorem strContains_concat_mem (parts : List String) (p : String)
    (h : p ∈ parts) : strContains (strConcat parts) p = true := by
  induction parts with
  | nil => cases h
  | cons a rest ih =>
    show strContains (a ++ strConcat rest) p = true
    rcases List.mem_cons.mp h with h1 | h1
    · subst h1
      exact strContains_app_left _ _ _ (strContains_refl p)
    · exact strContains_app_right _ _ _ (ih h1)

/-! ### Claim theorems -/

/-- C1: the advisory classifier is a total deterministic function of the
optional integer advisory index matching the tier table of spec section
4.3 at every boundary, and both renderings of an advisory string — the
activity recommendation and the JSON `aqi_status` — apply that same
table. -/
theorem advisory_classifier_matches_table (i : Option Int) :
    get_activity_recommendation i = recTierString (specTier i) ∧
    aqi_status_of i = statusTierString (specTier i) := by
  cases i with
  | none => exact ⟨rfl, rfl⟩
  | some a =>
    constructor <;>
      (simp only [get_activity_recommendation, aqi_status_of, specTier]
       split_ifs <;> first | rfl | omega)

/-- C5: when the formatted reading handed to `get_gemini_response` is
empty or absent, composition is skipped and the fixed apology is returned
with no call to the LLM collaborator. -/
theorem empty_reading_short_circuits (gemini : String → Option String)
    (query : String) (fd : Option String) (city level : String)
    (h : fd = none ∨ fd = some "") :
    get_gemini_response gemini query fd city level =
      ("I could not get the air quality data, try again later!", []) := by
  rcases h with h | h <;> subst h <;> rfl

theorem empty_reading_short_circuits_witness :
    get_gemini_response (fun _ => some "ok") "how is the air" (some "") "Stockholm" "full" =
      ("I could not get the air quality data, try again later!", []) :=
  empty_reading_short_circuits (fun _ => some "ok") "how is the air" (some "") "Stockholm"
    "full" (Or.inr rfl)

/-- C8: at the concise detail level the display function prints nothing
and returns immediately, for every reading and city name. -/
theorem concise_display_prints_nothing (data : Option AirData) (city : String) :
    display_air_quality_data data city "concise" = "" := by
  rfl

/-- C10: the module never defines `IOT_API_URL`, so every call of
`get_iot_data` raises an uncaught `NameError` (the handler catches only
`RequestException`) and the `/aqipollutantsiot` endpoint can never return
its success payload. -/
theorem iot_endpoint_always_name_error :
    "IOT_API_URL" ∉ moduleTopLevelNames ∧
    ∀ iotResp, aqi_pollutants_iot_api iotResp =
      .error (.nameError "IOT_API_URL") := by
  constructor
  · decide
  · intro iotResp
    rfl

/-- Each request cycle either keeps the session or installs a
successfully resolved location. -/
theorem air_quality_api_session_cases (env : Env) (s : Session) (q : String) :
    (air_quality_api env s q).session = s ∨
    ∃ lat lon city, get_coordinates env city = some (lat, lon) ∧
      (air_quality_api env s q).session =
        { current_latitude := lat, current_longitude := lon
          current_city_name := city } := by
  cases hm : matchLocationChange (pyLower q) with
  | none =>
    cases hf : get_air_quality_data env s.current_latitude s.current_longitude with
    | none => left; simp only [air_quality_api, hm, hf]
    | some data =>
      left
      simp only [air_quality_api, hm, hf]
      split <;> rfl
  | some city =>
    cases hg : get_coordinates env city with
    | none => left; simp only [air_quality_api, hm, hg]
    | some latlon =>
      obtain ⟨lat, lon⟩ := latlon
      right
      refine ⟨lat, lon, city, hg, ?_⟩
      simp only [air_quality_api, hm, hg]

theorem runCycles_resolved (env : Env) (s₀ : Session) :
    ∀ (qs : List String) (s : Session), sessionResolved env s₀ s →
      sessionResolved env s₀ (runCycles env s qs) := by
  intro qs
  induction qs with
  | nil => intro s h; exact h
  | cons q rest ih =>
    intro s h
    show sessionResolved env s₀ (runCycles env (air_quality_api env s q).session rest)
    apply ih
    rcases air_quality_api_session_cases env s q with h1 | ⟨lat, lon, city, hg, h1⟩
    · rw [h1]; exact h
    · exact Or.inr ⟨lat, lon, city, hg, h1⟩

/-- C2: the session location is always the default or the last
successfully resolved one; in particular a failed resolution in a
location-change cycle leaves all three components unchanged. -/
theorem session_location_invariant (env : Env) :
    (∀ s q city, matchLocationChange (pyLower q) = some city →
      get_coordinates env city = none → (air_quality_api env s q).session = s) ∧
    (∀ qs, sessionResolved env defaultSession (runCycles env defaultSession qs)) := by
  constructor
  · intro s q city hm hg
    simp only [air_quality_api, hm, hg]
  · intro qs
    exact runCycles_resolved env defaultSession qs defaultSession (Or.inl rfl)

theorem session_location_invariant_witness :
    (air_quality_api envFailAll defaultSession "change the location to Paris").session =
      defaultSession :=
  (session_location_invariant envFailAll).1 defaultSession
    "change the location to Paris" "paris" rfl rfl

/-- C3 counterexample: on the request "change the location to London" the
controller invokes the Location Resolver with the lowercased string
"london", not with "London" — the handler lowercases the query before the
pattern match. -/
theorem location_resolver_london_claim_false : ¬ claimLocationResolverLondon := by
  intro h
  have h1 := h envLondon defaultSession
  exact absurd h1 (by decide)

/-- C3 (amended): on the request "change the location to London" the
controller invokes the Location Resolver with the lowercased city string
"london"; on successful resolution it overwrites the session location,
returns the "Location updated to london" acknowledgment, and performs no
air-quality fetch and no LLM call in that cycle. -/
theorem location_change_london_cycle (env : Env) (s : Session) (lat lon : Rat)
    (hits : List (Rat × Rat)) (h : env.geo "london" = some ((lat, lon) :: hits)) :
    (air_quality_api env s "change the location to London").trace.geocodeCalls = ["london"] ∧
    (air_quality_api env s "change the location to London").session =
      { current_latitude := lat, current_longitude := lon, current_city_name := "london" } ∧
    (air_quality_api env s "change the location to London").response =
      .statusMsg "Location updated to london" ∧
    (air_quality_api env s "change the location to London").trace.fetchCalls = [] ∧
    (air_quality_api env s "change the location to London").trace.llmPrompts = [] := by
  have hm : matchLocationChange (pyLower "change the location to London") = some "london" := rfl
  have hg : get_coordinates env "london" = some (lat, lon) := by
    simp [get_coordinates, h]
  refine ⟨?_, ?_, ?_, ?_, ?_⟩ <;> simp only [air_quality_api, hm, hg]
  all_goals decide

theorem location_change_london_cycle_witness :
    (air_quality_api envLondon defaultSession "change the location to London").session =
      { current_latitude := mkRat 515074 10000, current_longitude := mkRat (-1278) 10000
        current_city_name := "london" } :=
  (location_change_london_cycle envLondon defaultSession (mkRat 515074 10000) (mkRat (-1278) 10000)
    [] rfl).2.1

/-- C4 counterexample: when the fetch fails, the HTTP controller of the
Gemini variant does not return the apology beginning with "Sorry" — it returns the JSON error message "Could not
get air quality data". -/
theorem fetch_failure_apology_claim_false : ¬ claimFetchFailureApology := by
  intro h
  have h1 := h envFailAll defaultSession "hello" rfl rfl
  exact absurd h1 (by decide)

/-- C4 (amended): whenever the air-quality fetch fails, each controller
returns its fixed failure message without composing a prompt and without
invoking the LLM collaborator: the console controller
(`get_gpt_response_with_air_quality`) returns the apology "Sorry, I
could not retrieve the air quality data (...)", and the
HTTP controller (`air_quality_api`) returns the JSON error "Could not get
air quality data" with status 500, leaving the session unchanged. -/
theorem fetch_failure_fixed_messages :
    (∀ (openai : String → Option String) (q : String),
      get_gpt_response_with_air_quality openai none q = (consoleApology, [])) ∧
    (∀ env s q, matchLocationChange (pyLower q) = none →
      get_air_quality_data env s.current_latitude s.current_longitude = none →
      (air_quality_api env s q).response = .errorMsg "Could not get air quality data" 500 ∧
      (air_quality_api env s q).trace.llmPrompts = [] ∧
      (air_quality_api env s q).session = s) := by
  constructor
  · intro openai q
    rfl
  · intro env s q hm hf
    refine ⟨?_, ?_, ?_⟩ <;> simp only [air_quality_api, hm, hf]

theorem fetch_failure_fixed_messages_witness :
    get_gpt_response_with_air_quality (fun _ => some "ok") none "Can I go jogging today?" =
      (consoleApology, []) ∧
    (air_quality_api envFailAll defaultSession "hello").response =
      .errorMsg "Could not get air quality data" 500 :=
  ⟨fetch_failure_fixed_messages.1 (fun _ => some "ok") "Can I go jogging today?",
   (fetch_failure_fixed_messages.2 envFailAll defaultSession "hello" rfl rfl).1⟩

/-- C6 counterexample: for the user text "POLLUTANTS" the cycle behaves at
the full detail level (the console display is nonempty) although the text
contains neither keyword literally — the controller scans the lowercased
text. -/
theorem keyword_detail_level_claim_false : ¬ claimKeywordDetailLevel := by
  intro h
  have h1 := h "POLLUTANTS" envOk defaultSession sampleData rfl rfl
  have h2 := h1.mp (by decide)
  exact absurd h2 (by decide)

/-- C6 (amended): the detail level is full exactly when the lowercased
user text contains the keyword "details" or "pollutants", and concise
otherwise; this single decision governs both the display verbosity and
which prompt template is composed. -/
theorem keyword_detail_level_lowercased (env : Env) (s : Session) (raw : String)
    (data : AirData) (hm : matchLocationChange (pyLower raw) = none)
    (hf : get_air_quality_data env s.current_latitude s.current_longitude = some data) :
    (detailLevelOf (pyLower raw) = "full" ↔
      (pyContains (pyLower raw) "details" = true ∨
        pyContains (pyLower raw) "pollutants" = true)) ∧
    (air_quality_api env s raw).trace.displayed =
      display_air_quality_data (some data) s.current_city_name (detailLevelOf (pyLower raw)) ∧
    (air_quality_api env s raw).trace.llmPrompts =
      (get_gemini_response env.gemini (pyLower raw) (some (format_api_response env.now data))
        s.current_city_name (detailLevelOf (pyLower raw))).2 ∧
    (air_quality_api env s raw).response =
      .responseMsg (get_gemini_response env.gemini (pyLower raw)
        (some (format_api_response env.now data)) s.current_city_name
        (detailLevelOf (pyLower raw))).1 := by
  have hiff : detailLevelOf (pyLower raw) = "full" ↔
      (pyContains (pyLower raw) "details" = true ∨
        pyContains (pyLower raw) "pollutants" = true) := by
    unfold detailLevelOf
    by_cases hc : (pyContains (pyLower raw) "details" || pyContains (pyLower raw) "pollutants") = true
    · rw [if_pos hc]
      simp only [Bool.or_eq_true] at hc
      simpa using hc
    · rw [if_neg hc]
      simp only [Bool.or_eq_true] at hc
      constructor
      · intro hcf
        exact absurd hcf (by decide)
      · intro hcf
        exact absurd hcf hc
  refine ⟨hiff, ?_, ?_, ?_⟩ <;>
    by_cases hc : (pyContains (pyLower raw) "details" || pyContains (pyLower raw) "pollutants") = true <;>
      simp [air_quality_api, detailLevelOf, hm, hf, hc]

theorem keyword_detail_level_lowercased_witness :
    (air_quality_api envOk defaultSession "details please").trace.displayed =
      display_air_quality_data (some sampleData) defaultSession.current_city_name
        (detailLevelOf (pyLower "details please")) :=
  (keyword_detail_level_lowercased envOk defaultSession "details please" sampleData
    rfl rfl).2.1

set_option maxRecDepth 20000 in
/-- C7 counterexample: the full report does not use a fixed two-decimal
rendering — a present PM2.5 value of 12.3 is rendered as "12.3", not as
"12.30". -/
theorem full_report_two_decimal_claim_false : ¬ claimFullReportTwoDecimal := by
  intro h
  have h1 := h "2026-01-01 00:00:00" cexData cexEntry [] rfl (mkRat 123 10) rfl
  exact absurd h1 (by decide)

/-- C7 (amended): the full report is a multi-line block containing a
generation timestamp, coordinates, the advisory index, and one line per
pollutant; a pollutant whose concentration is present and truthy
(nonzero) is rendered with the default numeric rendering of the value (not a
fixed two-decimal one) and a unit suffix, while an absent — or zero —
concentration renders as "Not Available". -/
theorem full_report_content (now : String) (data : AirData) (air : AirEntry)
    (rest : List AirEntry) (h : data.list = air :: rest) :
    strContains (format_api_response now data)
      ("Air Quality Data from " ++ now ++ ":\n") = true ∧
    strContains (format_api_response now data)
      ("Coordinates: Lon = " ++ optRatStr data.coord_lon ++ ", Lat = "
        ++ optRatStr data.coord_lat ++ "\n") = true ∧
    strContains (format_api_response now data)
      ("AQI: " ++ optIntStr air.aqi ++ "\n") = true ∧
    strContains (format_api_response now data)
      (pollLine "PM2.5" (air.components.getD emptyComponents).pm2_5) = true ∧
    strContains (format_api_response now data)
      (pollLine "PM10" (air.components.getD emptyComponents).pm10) = true ∧
    strContains (format_api_response now data)
      (pollLine "CO" (air.components.getD emptyComponents).co) = true ∧
    strContains (format_api_response now data)
      (pollLine "NO" (air.components.getD emptyComponents).no) = true ∧
    strContains (format_api_response now data)
      (pollLine "NO2" (air.components.getD emptyComponents).no2) = true ∧
    strContains (format_api_response now data)
      (pollLine "O3" (air.components.getD emptyComponents).o3) = true ∧
    strContains (format_api_response now data)
      (pollLine "SO2" (air.components.getD emptyComponents).so2) = true ∧
    strContains (format_api_response now data)
      (pollLine "NH3" (air.components.getD emptyComponents).nh3) = true ∧
    strContains (format_api_response now data)
      ("Timestamp: " ++ optIntStr air.dt ++ "\n") = true ∧
    (∀ label v, pyTruthy v = false →
      pollLine label v = "  " ++ label ++ ": Not Available\n") ∧
    (∀ label v x, v = some x → pyTruthy v = true →
      pollLine label v = "  " ++ label ++ ": " ++ ratStr x ++ " μg/m³\n") := by
  have hout : format_api_response now data = strConcat
      ["Air Quality Data from " ++ now ++ ":\n",
       "Coordinates: Lon = " ++ optRatStr data.coord_lon ++ ", Lat = "
         ++ optRatStr data.coord_lat ++ "\n",
       "AQI: " ++ optIntStr air.aqi ++ "\n",
       "Pollutants:\n",
       pollLine "PM2.5" (air.components.getD emptyComponents).pm2_5,
       pollLine "PM10" (air.components.getD emptyComponents).pm10,
       pollLine "CO" (air.components.getD emptyComponents).co,
       pollLine "NO" (air.components.getD emptyComponents).no,
       pollLine "NO2" (air.components.getD emptyComponents).no2,
       pollLine "O3" (air.components.getD emptyComponents).o3,
       pollLine "SO2" (air.components.getD emptyComponents).so2,
       pollLine "NH3" (air.components.getD emptyComponents).nh3,
       "Timestamp: " ++ optIntStr air.dt ++ "\n"] := by
    simp only [format_api_response, h]
  rw [hout]
  refine ⟨?_, ?_, ?_, ?_, ?_, ?_, ?_, ?_, ?_, ?_, ?_, ?_, ?_, ?_⟩
  · exact strContains_concat_mem _ _ (by simp)
  · exact strContains_concat_mem _ _ (by simp)
  · exact strContains_concat_mem _ _ (by simp)
  · exact strContains_concat_mem _ _ (by simp)
  · exact strContains_concat_mem _ _ (by simp)
  · exact strContains_concat_mem _ _ (by simp)
  · exact strContains_concat_mem _ _ (by simp)
  · exact strContains_concat_mem _ _ (by simp)
  · exact strContains_concat_mem _ _ (by simp)
  · exact strContains_concat_mem _ _ (by simp)
  · exact strContains_concat_mem _ _ (by simp)
  · exact strContains_concat_mem _ _ (by simp)
  · intro label v hv
    simp [pollLine, hv]
  · intro label v x hx hv
    subst hx
    simp [pollLine, hv]

theorem full_report_content_witness :
    strContains (format_api_response "2026-01-01 00:00:00" sampleData)
      (pollLine "PM2.5" (sampleEntry.components.getD emptyComponents).pm2_5) = true :=
  (full_report_content "2026-01-01 00:00:00" sampleData sampleEntry [] rfl).2.2.2.1

/-- C9: in the full-report formatter a pollutant whose concentration is
present but exactly 0.0 renders as "Not Available", identically to an
absent pollutant (presence is tested by truthiness), whereas the console
display function, which tests `is not None`, prints the zero value as
"0.00" with its unit. -/
theorem zero_concentration_renders_not_available (now : String) (data : AirData)
    (air : AirEntry) (rest : List AirEntry) (c : Components) (city : String)
    (h : data.list = air :: rest) (hc : air.components = some c)
    (hz : c.pm2_5 = some 0) :
    format_api_response now data =
      format_api_response now
        { data with list := { air with components := some { c with pm2_5 := none } } :: rest } ∧
    strContains (format_api_response now data) "  PM2.5: Not Available\n" = true ∧
    strContains (display_air_quality_data (some data) city "full")
      "- PM2.5: 0.00 μg/m³\n" = true := by
  refine ⟨?_, ?_, ?_⟩
  · simp [format_api_response, h, hc, hz, pollLine, pyTruthy]
  · have hp : pollLine "PM2.5" (some 0) = "  PM2.5: Not Available\n" := rfl
    have hout : format_api_response now data = strConcat
        ["Air Quality Data from " ++ now ++ ":\n",
         "Coordinates: Lon = " ++ optRatStr data.coord_lon ++ ", Lat = "
           ++ optRatStr data.coord_lat ++ "\n",
         "AQI: " ++ optIntStr air.aqi ++ "\n",
         "Pollutants:\n",
         pollLine "PM2.5" (some 0),
         pollLine "PM10" c.pm10,
         pollLine "CO" c.co,
         pollLine "NO" c.no,
         pollLine "NO2" c.no2,
         pollLine "O3" c.o3,
         pollLine "SO2" c.so2,
         pollLine "NH3" c.nh3,
         "Timestamp: " ++ optIntStr air.dt ++ "\n"] := by
      simp only [format_api_response, h, hc, hz, Option.getD_some]
    rw [hout, ← hp]
    exact strContains_concat_mem _ _ (by simp)
  · simp only [display_air_quality_data, h, hc, hz, Option.getD_some, Option.isSome_some]
    rw [if_neg (by decide : ¬("full" = "concise"))]
    simp only [if_true]
    apply strContains_app_left
    apply strContains_app_right
    apply strContains_app_left
    have h25 : ("- PM2.5: " ++ formatTwoDec 0 ++ " μg/m³\n") = "- PM2.5: 0.00 μg/m³\n" := by
      decide
    rw [h25]
    exact strContains_refl _

theorem zero_concentration_renders_not_available_witness :
    strContains (format_api_response "2026-01-01 00:00:00" zeroData)
      "  PM2.5: Not Available\n" = true :=
  (zero_concentration_renders_not_available "2026-01-01 00:00:00" zeroData zeroEntry []
    zeroComps "Stockholm" rfl rfl rfl).2.1

end AirSense
